import Mathlib

/-!
Verification development for the lead-report bot in src/bot.py.

The pure core of the program (lead parsing, city normalization, report
aggregation, persistence round trip, date-range resolution and the settime
command) is embedded shallowly below, and the specification claims are
settled as theorems about the embedding.

Modelling conventions:
* Python `datetime` values are records of calendar and time fields; the
  invariant Python enforces on construction is the predicate `dtValid`.
* The concrete regular expressions of the source are embedded as
  specialized backtracking matchers over `List Char`, faithful to the
  greedy-with-backtracking semantics of the exact patterns used.
* A Python exception is `Except.error ()`; Python `None` is `none`.
* Character classes use the ASCII whitespace and digit sets plus the
  Cyrillic block, which covers every script occurring in the source.
* The global mutable state of the script (the `leads` dict, `REPORT_HOUR`,
  the job queue) is passed explicitly; `now_kyiv()` is an explicit
  `DateTime` argument.
-/

/-! Character helpers (Python `str.lower`, `str.upper`, `str.strip`,
`str.title`, substring test, digits). -/

-- Python str.lower / re.IGNORECASE folding, for ASCII and the Cyrillic
-- block (U+0400-U+04FF plus U+0490/U+0491) used by the source's data.
def pyLower (c : Char) : Char :=
  let v := c.toNat
  if 65 ≤ v ∧ v ≤ 90 then Char.ofNat (v + 32)
  else if 0x410 ≤ v ∧ v ≤ 0x42F then Char.ofNat (v + 0x20)
  else if 0x400 ≤ v ∧ v ≤ 0x40F then Char.ofNat (v + 0x50)
  else if v = 0x490 then Char.ofNat 0x491
  else c

def pyUpper (c : Char) : Char :=
  let v := c.toNat
  if 97 ≤ v ∧ v ≤ 122 then Char.ofNat (v - 32)
  else if 0x430 ≤ v ∧ v ≤ 0x44F then Char.ofNat (v - 0x20)
  else if 0x450 ≤ v ∧ v ≤ 0x45F then Char.ofNat (v - 0x50)
  else if v = 0x491 then Char.ofNat 0x490
  else c

-- Python `\s` / str.strip whitespace (ASCII part).
def pySpace (c : Char) : Bool :=
  c = ' ' ∨ c = '\t' ∨ c = '\n' ∨ c = '\x0b' ∨ c = '\x0c' ∨ c = '\r'

def isDigitChar (c : Char) : Bool := 48 ≤ c.toNat ∧ c.toNat ≤ 57

-- Letters that count as cased for Python str.title, and as word
-- characters for `\w` (ASCII alphanumerics, underscore, Cyrillic block).
def isCasedLetter (c : Char) : Bool :=
  let v := c.toNat
  (65 ≤ v ∧ v ≤ 90) ∨ (97 ≤ v ∧ v ≤ 122) ∨ (0x400 ≤ v ∧ v ≤ 0x4FF)

def isWordRe (c : Char) : Bool :=
  c = '_' ∨ isDigitChar c ∨ isCasedLetter c

def pyLowerList (l : List Char) : List Char := l.map pyLower

-- Python str.strip(): drop whitespace from both ends.
def pyStripChars (l : List Char) : List Char :=
  ((l.dropWhile pySpace).reverse.dropWhile pySpace).reverse

def pyStrip (s : String) : String := String.mk (pyStripChars s.data)

-- Python str.title(): a cased letter that follows a cased letter is
-- lowered, one that follows anything else is uppered.
def titleGo : Bool → List Char → List Char
  | _, [] => []
  | prev, c :: cs =>
    if isCasedLetter c then
      (if prev then pyLower c else pyUpper c) :: titleGo true cs
    else c :: titleGo false cs

def pyTitle (l : List Char) : List Char := titleGo false l

def startsWithChars : List Char → List Char → Bool
  | [], _ => true
  | _ :: _, [] => false
  | a :: as, b :: bs => a = b ∧ startsWithChars as bs

-- Python `needle in hay` on strings.
def containsSub (needle : List Char) : List Char → Bool
  | [] => needle.isEmpty
  | c :: cs => startsWithChars needle (c :: cs) ∨ containsSub needle cs

/-! Naive Python datetime: calendar plus time-of-day fields. -/

structure DateTime where
  year : Nat
  month : Nat
  day : Nat
  hour : Nat
  minute : Nat
  second : Nat
  usec : Nat
deriving DecidableEq

def isLeap (y : Nat) : Bool := (y % 4 = 0 ∧ ¬ y % 100 = 0) ∨ y % 400 = 0

def leapBit (y : Nat) : Nat := if isLeap y then 1 else 0

def daysInMonth (y m : Nat) : Nat :=
  match m with
  | 1 => 31
  | 2 => if isLeap y then 29 else 28
  | 3 => 31
  | 4 => 30
  | 5 => 31
  | 6 => 30
  | 7 => 31
  | 8 => 31
  | 9 => 30
  | 10 => 31
  | 11 => 30
  | 12 => 31
  | _ => 0

def daysBeforeMonth (y m : Nat) : Nat :=
  match m with
  | 1 => 0
  | 2 => 31
  | 3 => 59 + leapBit y
  | 4 => 90 + leapBit y
  | 5 => 120 + leapBit y
  | 6 => 151 + leapBit y
  | 7 => 181 + leapBit y
  | 8 => 212 + leapBit y
  | 9 => 243 + leapBit y
  | 10 => 273 + leapBit y
  | 11 => 304 + leapBit y
  | 12 => 334 + leapBit y
  | _ => 0

-- The invariant Python's datetime constructor enforces.
def dtValid (dt : DateTime) : Bool :=
  decide (1 ≤ dt.year ∧ dt.year ≤ 9999 ∧ 1 ≤ dt.month ∧ dt.month ≤ 12 ∧
    1 ≤ dt.day ∧ dt.day ≤ daysInMonth dt.year dt.month ∧
    dt.hour ≤ 23 ∧ dt.minute ≤ 59 ∧ dt.second ≤ 59 ∧ dt.usec ≤ 999999)

-- Python datetime comparison: lexicographic on the fields.
def dtLe (a b : DateTime) : Bool :=
  if a.year ≠ b.year then decide (a.year < b.year)
  else if a.month ≠ b.month then decide (a.month < b.month)
  else if a.day ≠ b.day then decide (a.day < b.day)
  else if a.hour ≠ b.hour then decide (a.hour < b.hour)
  else if a.minute ≠ b.minute then decide (a.minute < b.minute)
  else if a.second ≠ b.second then decide (a.second < b.second)
  else decide (a.usec ≤ b.usec)

-- Day number of a valid date (rata die); drives the fuel of the
-- `while current <= date_to` loop of get_leads_for_range.
def rdOf (dt : DateTime) : Nat :=
  365 * (dt.year - 1) + (dt.year - 1) / 4 - (dt.year - 1) / 100 +
    (dt.year - 1) / 400 + daysBeforeMonth dt.year dt.month + (dt.day - 1)

-- `current + timedelta(days=1)` keeps the time-of-day fields.
def nextDay (dt : DateTime) : DateTime :=
  if dt.day < daysInMonth dt.year dt.month then { dt with day := dt.day + 1 }
  else if dt.month < 12 then { dt with month := dt.month + 1, day := 1 }
  else { dt with year := dt.year + 1, month := 1, day := 1 }

-- `today.replace(day=1)`.
def replaceDay1 (dt : DateTime) : DateTime := { dt with day := 1 }

/-! Decimal digit rendering and parsing. -/

def dc : Nat → Char
  | 0 => '0'
  | 1 => '1'
  | 2 => '2'
  | 3 => '3'
  | 4 => '4'
  | 5 => '5'
  | 6 => '6'
  | 7 => '7'
  | 8 => '8'
  | _ => '9'

def digitVal (c : Char) : Option Nat :=
  if isDigitChar c then some (c.toNat - 48) else none

-- Zero-padded rendering, mirroring %02d / %04d / %06d on in-range values.
def pad2 (n : Nat) : List Char := [dc (n / 10 % 10), dc (n % 10)]

def pad4 (n : Nat) : List Char :=
  [dc (n / 1000 % 10), dc (n / 100 % 10), dc (n / 10 % 10), dc (n % 10)]

def pad6 (n : Nat) : List Char :=
  [dc (n / 100000 % 10), dc (n / 10000 % 10), dc (n / 1000 % 10),
   dc (n / 100 % 10), dc (n / 10 % 10), dc (n % 10)]

def num2 (a b : Char) : Option Nat :=
  match digitVal a, digitVal b with
  | some x, some y => some (10 * x + y)
  | _, _ => none

def num4 (a b c d : Char) : Option Nat :=
  match digitVal a, digitVal b, digitVal c, digitVal d with
  | some x, some y, some z, some w => some (1000 * x + 100 * y + 10 * z + w)
  | _, _, _, _ => none

def num6 (a b c d e f : Char) : Option Nat :=
  match digitVal a, digitVal b, digitVal c, digitVal d, digitVal e, digitVal f with
  | some u, some v, some w, some x, some y, some z =>
      some (100000 * u + 10000 * v + 1000 * w + 100 * x + 10 * y + z)
  | _, _, _, _, _, _ => none

-- str(n) for a Nat (no padding), used for f-string year interpolation.
def natDigitsAux : Nat → Nat → List Char
  | 0, _ => []
  | fuel + 1, n => if n < 10 then [dc n] else natDigitsAux fuel (n / 10) ++ [dc (n % 10)]

def natDigits (n : Nat) : List Char := natDigitsAux (n + 1) n

/-! Lead records and the lead store (src/bot.py lines 21-32). -/

structure Lead where
  name : String
  phone : String
  area : String
  location : String
  timing : String
  platform : String
  source : String
  date : DateTime
deriving DecidableEq

-- The `leads` dict: day-key to ordered bucket, insertion-ordered.
def Store := List (String × List Lead)
deriving instance DecidableEq for Store

-- `leads.get(key, [])`.
def storeGet : Store → String → List Lead
  | [], _ => []
  | (k, v) :: rest, key => if k = key then v else storeGet rest key

-- `leads[k] = v` on a dict: overwrite an existing key, else append.
def setKey : Store → String → List Lead → Store
  | [], key, v => [(key, v)]
  | (k, b) :: rest, key, v =>
      if k = key then (k, v) :: rest else (k, b) :: setKey rest key v

/-! Normalizer (src/bot.py lines 53-72). -/

-- CITY_MAP, in source order.
def CITY_MAP : List (String × String) :=
  [("київ", "Київ"), ("киев", "Київ"), ("kyiv", "Київ"), ("kiev", "Київ"),
   ("ірпінь", "Ірпінь"), ("ирпень", "Ірпінь"), ("irpin", "Ірпінь"),
   ("буча", "Буча"), ("bucha", "Буча"),
   ("бровари", "Бровари"), ("бровары", "Бровари"), ("brovary", "Бровари"),
   ("вишневе", "Вишневе"), ("вишневое", "Вишневе"),
   ("бориспіль", "Бориспіль"), ("борисполь", "Бориспіль"),
   ("інше місто", "Інше місто"), ("інше_місто", "Інше місто"),
   ("другой город", "Інше місто"), ("other", "Інше місто"),
   ("другой_город", "Інше місто")]

def lookupMap : List (String × String) → String → Option String
  | [], _ => none
  | (k, v) :: rest, key => if k = key then some v else lookupMap rest key

-- re.sub(r"[_\-]", " ", raw): replace each underscore or hyphen by a space.
def subUnderscoreHyphen (c : Char) : Char :=
  if c = '_' ∨ c = '-' then ' ' else c

def normalize_city (raw : String) : String :=
  let key := String.mk (pyStripChars (pyLowerList (raw.data.map subUnderscoreHyphen)))
  match lookupMap CITY_MAP key with
  | some v => v
  | none => String.mk (pyTitle (pyStripChars raw.data))

-- esc(): prefix each markup-special character with a backslash; the
-- sequential str.replace calls of the source act independently per
-- character, so a single pass is equivalent. toNat 96 is the backquote.
def escChars : List Char → List Char
  | [] => []
  | c :: cs =>
      if c = '_' ∨ c = '*' ∨ c = '[' ∨ c = ']' ∨ c.toNat = 96
      then '\\' :: c :: escChars cs
      else c :: escChars cs

def esc (text : String) : String := String.mk (escChars text.data)

/-! Embedded regex matching for the source's concrete patterns.
All matchers are greedy with full backtracking, as in Python `re`. -/

-- Match a literal (the fixed label part of a pattern) at the head,
-- optionally case-insensitively; return the remainder.
def matchLit (ci : Bool) : List Char → List Char → Option (List Char)
  | [], rest => some rest
  | _ :: _, [] => none
  | a :: as, b :: bs =>
      if (if ci then pyLower a = pyLower b else a = b)
      then matchLit ci as bs else none

-- `(.+)` at the current position: at least one non-newline character,
-- greedy to end of line.
def lineCapture : List Char → Option (List Char)
  | [] => none
  | c :: cs =>
      if c = '\n' then none
      else some (c :: cs.takeWhile (fun x => ¬ x = '\n'))

-- `p* k`: greedy star of a class followed by a continuation, with
-- backtracking (longest star first).
def starBT (p : Char → Bool) (k : List Char → Option (List Char)) :
    List Char → Option (List Char)
  | [] => k []
  | c :: cs =>
      if p c then
        match starBT p k cs with
        | some r => some r
        | none => k (c :: cs)
      else k (c :: cs)

-- `p+ k`.
def plusBT (p : Char → Bool) (k : List Char → Option (List Char)) :
    List Char → Option (List Char)
  | [] => none
  | c :: cs => if p c then starBT p k cs else none

-- `\n? k` (greedy option).
def optNl (k : List Char → Option (List Char)) : List Char → Option (List Char)
  | '\n' :: cs =>
      (match k cs with
       | some r => some r
       | none => k ('\n' :: cs))
  | l => k l

-- re.search: try the matcher at each start position, leftmost first.
def reSearch {α : Type} (m : List Char → Option α) : List Char → Option α
  | [] => m []
  | c :: cs =>
      match m (c :: cs) with
      | some r => some r
      | none => reSearch m cs

-- [:\s] and [?\s] classes.
def isColonSpace (c : Char) : Bool := c = ':' ∨ pySpace c
def isQSpace (c : Char) : Bool := c = '?' ∨ pySpace c

-- `label[:\s]+(.+)` searched with IGNORECASE | MULTILINE.
def labeledSearch (label : List Char) (t : List Char) : Option (List Char) :=
  reSearch (fun l => (matchLit true label l).bind (plusBT isColonSpace lineCapture)) t

-- `label[\w_]*[:\s]+(.+)` (format B area / timing labels).
def labeledWordSearch (label : List Char) (t : List Char) : Option (List Char) :=
  reSearch
    (fun l => (matchLit true label l).bind (starBT isWordRe (plusBT isColonSpace lineCapture)))
    t

-- `\d{2}\.\d{2}\.\d{4}` capture at the current position.
def dmyCapture : List Char → Option (List Char)
  | a :: b :: '.' :: c :: d :: '.' :: e :: f :: g :: h :: _ =>
      if isDigitChar a ∧ isDigitChar b ∧ isDigitChar c ∧ isDigitChar d ∧
         isDigitChar e ∧ isDigitChar f ∧ isDigitChar g ∧ isDigitChar h
      then some [a, b, '.', c, d, '.', e, f, g, h]
      else none
  | _ => none

-- re.search(r"Дата Заявки[:\s]+(\d{2}\.\d{2}\.\d{4})", text), case-sensitive.
def findDate (t : List Char) : Option (List Char) :=
  reSearch (fun l => (matchLit false (("Дата Заявки").data) l).bind (plusBT isColonSpace dmyCapture)) t

/-! Lead parser (src/bot.py lines 74-107). -/

def sigA : List Char := ("Новый лид из META Ads").data
def sigB1 : List Char := ("Request details").data
def sigB2 : List Char := ("Номер_телефону").data

-- extract(): captured group stripped, or the placeholder.
def extract (res : Option (List Char)) : String :=
  match res with
  | some cap => String.mk (pyStripChars cap)
  | none => ("—")

def findNameA (t : List Char) : Option (List Char) :=
  labeledSearch (("Имя").data) t
def findPhoneA (t : List Char) : Option (List Char) :=
  labeledSearch (("Номер телефона").data) t
def findAreaA (t : List Char) : Option (List Char) :=
  labeledSearch (("Площадь помещения").data) t
def findLocationA (t : List Char) : Option (List Char) :=
  labeledSearch (("Локация").data) t
-- `Когда планируете установку[?\s]*\n?(.+)`.
def findTimingA (t : List Char) : Option (List Char) :=
  reSearch
    (fun l =>
      (matchLit true (("Когда планируете установку").data) l).bind
        (starBT isQSpace (optNl lineCapture)))
    t
def findPlatformA (t : List Char) : Option (List Char) :=
  labeledSearch (("Платформа").data) t

def findNameB (t : List Char) : Option (List Char) :=
  labeledSearch (("Name").data) t
def findPhoneB (t : List Char) : Option (List Char) :=
  labeledSearch (("Номер_телефону").data) t
def findAreaB (t : List Char) : Option (List Char) :=
  labeledWordSearch (("Площа_приміщення").data) t
def findLocationB (t : List Char) : Option (List Char) :=
  labeledSearch (("Локація").data) t
def findTimingB (t : List Char) : Option (List Char) :=
  labeledWordSearch (("Коли_плануєте_встановлення").data) t

-- datetime.strptime(s, "%d.%m.%Y"): exact shape, validated calendar date.
def strptimeDMY : List Char → Option DateTime
  | [a, b, '.', c, d, '.', e, f, g, h] =>
      (match num2 a b, num2 c d, num4 e f g h with
       | some da, some mo, some y =>
           if 1 ≤ y ∧ 1 ≤ mo ∧ mo ≤ 12 ∧ 1 ≤ da ∧ da ≤ daysInMonth y mo
           then some ⟨y, mo, da, 0, 0, 0, 0⟩ else none
       | _, _, _ => none)
  | _ => none

-- `lead_date = strptime(date_m.group(1)) if date_m else now_kyiv()`;
-- an invalid matched date makes strptime raise.
def leadDateResolve (t : List Char) (now : DateTime) : Except Unit DateTime :=
  match findDate t with
  | some cap =>
      (match strptimeDMY cap with
       | some d => Except.ok d
       | none => Except.error ())
  | none => Except.ok now

def recordA (t : List Char) (d : DateTime) : Lead :=
  { name := extract (findNameA t), phone := extract (findPhoneA t),
    area := extract (findAreaA t), location := extract (findLocationA t),
    timing := extract (findTimingA t), platform := extract (findPlatformA t),
    source := ("META Ads"), date := d }

def recordB (t : List Char) (d : DateTime) : Lead :=
  { name := extract (findNameB t), phone := extract (findPhoneB t),
    area := extract (findAreaB t), location := extract (findLocationB t),
    timing := extract (findTimingB t), platform := ("Сайт"),
    source := ("Сайт"), date := d }

def parse_lead (text : String) (now : DateTime) : Except Unit (Option Lead) :=
  let t := text.data
  if containsSub sigA t then
    match leadDateResolve t now with
    | Except.ok d => Except.ok (some (recordA t d))
    | Except.error e => Except.error e
  else if containsSub sigB1 t ∨ containsSub sigB2 t then
    match leadDateResolve t now with
    | Except.ok d => Except.ok (some (recordB t d))
    | Except.error e => Except.error e
  else Except.ok none

/-! Report aggregator (src/bot.py lines 109-161). -/

-- The dedup loop: `seen` set of trimmed phones, kept records in order,
-- dropped-occurrence counter.
def dedupPhone : List Lead → List String → List Lead × Nat
  | [], _ => ([], 0)
  | l :: ls, seen =>
      let phone := pyStrip l.phone
      if phone ∈ seen then
        ((dedupPhone ls seen).1, (dedupPhone ls seen).2 + 1)
      else
        (l :: (dedupPhone ls (phone :: seen)).1, (dedupPhone ls (phone :: seen)).2)

-- defaultdict(int) counting: first-occurrence insertion order.
def bumpCount : List (String × Nat) → String → List (String × Nat)
  | [], k => [(k, 1)]
  | (k0, n) :: rest, k =>
      if k0 = k then (k0, n + 1) :: rest else (k0, n) :: bumpCount rest k

def groupCounts (key : Lead → String) (ls : List Lead) : List (String × Nat) :=
  ls.foldl (fun acc l => bumpCount acc (key l)) []

-- sorted(..., key=lambda x: -x[1]): stable descending sort by count.
def insDesc (x : String × Nat) : List (String × Nat) → List (String × Nat)
  | [] => [x]
  | y :: ys => if x.2 ≤ y.2 then y :: insDesc x ys else x :: y :: ys

def sortDesc (l : List (String × Nat)) : List (String × Nat) :=
  l.foldl (fun acc x => insDesc x acc) []

-- re.sub(r"[_]+$", "", s): drop a trailing run of underscores.
def dropTrailingUnderscores (l : List Char) : List Char :=
  (l.reverse.dropWhile (fun c => c = '_')).reverse

def areaKey (l : Lead) : String :=
  String.mk (pyStripChars (dropTrailingUnderscores l.area.data))

-- The data content of the rendered report text. Each city/area entry is
-- (escaped key, count, exact value of `n / total * 100` before the `.0f`
-- float formatting); platforms and sources carry counts only, as in the
-- source. The surrounding fixed markup of the f-string is not modelled.
structure ReportData where
  label : String
  total : Nat
  duplicates : Nat
  cities : List (String × Nat × ℚ)
  areas : List (String × Nat × ℚ)
  platforms : List (String × Nat)
  sources : List (String × Nat)
deriving DecidableEq

inductive ReportResult where
  | noLeads (label : String)
  | report (r : ReportData)
deriving DecidableEq

-- The non-empty branch of build_report. Note (source line 122): total is
-- taken from the raw list, BEFORE the `leads_list = unique` reassignment
-- of line 123, so it counts the dropped duplicates as well.
def reportData (leads_list : List Lead) (label : String) : ReportData :=
  let uniq := (dedupPhone leads_list []).1
  let duplicates := (dedupPhone leads_list []).2
  let total := leads_list.length
  let cities := sortDesc (groupCounts (fun l => normalize_city l.location) uniq)
  let areas := sortDesc (groupCounts areaKey uniq)
  let platforms := sortDesc (groupCounts (fun l => l.platform) uniq)
  let sources := sortDesc (groupCounts (fun l => l.source) uniq)
  { label := label, total := total, duplicates := duplicates,
    cities := cities.map (fun e => (esc e.1, e.2, (e.2 : ℚ) / (total : ℚ) * 100)),
    areas := areas.map (fun e => (esc e.1, e.2, (e.2 : ℚ) / (total : ℚ) * 100)),
    platforms := platforms.map (fun e => (esc e.1, e.2)),
    sources := sources.map (fun e => (esc e.1, e.2)) }

def build_report (leads_list : List Lead) (label : String) : ReportResult :=
  if leads_list = [] then ReportResult.noLeads label
  else ReportResult.report (reportData leads_list label)

/-! Persistence (src/bot.py lines 34-48). The JSON text layer is the
standard library's; the modelled content is the mapping structure that
json.dump/json.load transport verbatim, with the record's date replaced
by its isoformat string on save and re-parsed on load. -/

structure SerLead where
  name : String
  phone : String
  area : String
  location : String
  timing : String
  platform : String
  source : String
  date : String
deriving DecidableEq

-- datetime.isoformat(): microseconds omitted when zero.
def isoChars (dt : DateTime) : List Char :=
  pad4 dt.year ++ '-' :: pad2 dt.month ++ '-' :: pad2 dt.day ++
  'T' :: pad2 dt.hour ++ ':' :: pad2 dt.minute ++ ':' :: pad2 dt.second ++
  (if dt.usec = 0 then [] else '.' :: pad6 dt.usec)

def isoformat (dt : DateTime) : String := String.mk (isoChars dt)

def parseUsec : List Char → Option Nat
  | [] => some 0
  | '.' :: a :: b :: c :: d :: e :: f :: [] => num6 a b c d e f
  | _ => none

-- datetime.fromisoformat on isoformat-shaped input; an out-of-range
-- field makes the constructor raise, hence `none`.
def parseIso : List Char → Option DateTime
  | y1 :: y2 :: y3 :: y4 :: '-' :: m1 :: m2 :: '-' :: d1 :: d2 ::
    'T' :: h1 :: h2 :: ':' :: i1 :: i2 :: ':' :: s1 :: s2 :: rest =>
      (match num4 y1 y2 y3 y4, num2 m1 m2, num2 d1 d2, num2 h1 h2,
             num2 i1 i2, num2 s1 s2, parseUsec rest with
       | some y, some mo, some da, some hh, some mi, some se, some us =>
           let dt : DateTime := ⟨y, mo, da, hh, mi, se, us⟩
           if dtValid dt then some dt else none
       | _, _, _, _, _, _, _ => none)
  | _ => none

def fromisoformat (s : String) : Option DateTime := parseIso s.data

-- save_leads: the dict written to the file, date serialized per record.
def serLead (l : Lead) : SerLead :=
  { name := l.name, phone := l.phone, area := l.area, location := l.location,
    timing := l.timing, platform := l.platform, source := l.source,
    date := isoformat l.date }

def save_leads (s : Store) : List (String × List SerLead) :=
  s.map (fun kv => (kv.1, kv.2.map serLead))

def deserLead (sl : SerLead) : Option Lead :=
  (fromisoformat sl.date).map
    (fun d =>
      { name := sl.name, phone := sl.phone, area := sl.area,
        location := sl.location, timing := sl.timing,
        platform := sl.platform, source := sl.source, date := d })

-- The per-bucket list comprehension of load_leads; a fromisoformat
-- failure raises out of the whole load.
def loadBucket : List SerLead → Option (List Lead)
  | [] => some []
  | sl :: rest =>
      match deserLead sl, loadBucket rest with
      | some l, some ls => some (l :: ls)
      | _, _ => none

def load_leads_data : List (String × List SerLead) → Option Store
  | [] => some []
  | (k, v) :: rest =>
      match loadBucket v, load_leads_data rest with
      | some b, some r => some ((k, b) :: r)
      | _, _ => none

-- The state of the backing file as load_leads observes it: absent, or
-- present with content that json.load rejects, or present with parsed
-- JSON data of the persisted shape.
inductive LoadInput where
  | noFile
  | unreadable
  | parsed (data : List (String × List SerLead))

-- load_leads: returns early when the file is absent (store untouched);
-- propagates the json.load / fromisoformat exception otherwise; else
-- assigns every loaded key into the store.
def load_leads (current : Store) : LoadInput → Except Unit Store
  | LoadInput.noFile => Except.ok current
  | LoadInput.unreadable => Except.error ()
  | LoadInput.parsed data =>
      match load_leads_data data with
      | some s => Except.ok (s.foldl (fun acc kv => setKey acc kv.1 kv.2) current)
      | none => Except.error ()

-- Every stored record holds a constructible datetime (Python invariant).
def storeValid (s : Store) : Bool :=
  s.all (fun kv => kv.2.all (fun l => dtValid l.date))

/-! Date-range resolver (src/bot.py lines 163-194). -/

-- strftime("%Y-%m-%d"): the day-key of a datetime.
def dayKey (d : DateTime) : String :=
  String.mk (pad4 d.year) ++ ("-") ++ String.mk (pad2 d.month) ++ ("-") ++ String.mk (pad2 d.day)

def fmtDMY (d : DateTime) : String :=
  String.mk (pad2 d.day) ++ (".") ++ String.mk (pad2 d.month) ++ (".") ++ String.mk (pad4 d.year)

def todayLabel (t : DateTime) : String := ("сегодня (") ++ fmtDMY t ++ (")")

def rangeLabel (d1 d2 : DateTime) : String :=
  String.mk (pad2 d1.day) ++ (".") ++ String.mk (pad2 d1.month) ++ ("–") ++ fmtDMY d2

def dateLabel (d : DateTime) : String := fmtDMY d

-- strftime("%B %Y") month names (C locale).
def monthName : Nat → String
  | 1 => ("January")
  | 2 => ("February")
  | 3 => ("March")
  | 4 => ("April")
  | 5 => ("May")
  | 6 => ("June")
  | 7 => ("July")
  | 8 => ("August")
  | 9 => ("September")
  | 10 => ("October")
  | 11 => ("November")
  | 12 => ("December")
  | _ => ("")

def monthLabel (t : DateTime) : String := monthName t.month ++ (" ") ++ String.mk (pad4 t.year)

-- The `while current <= date_to` loop of get_leads_for_range, by fuel.
-- The fuel below is exactly the day distance plus one (see rdOf_nextDay),
-- so the guarded recursion runs precisely as the source loop does.
def glfrGo (d2 : DateTime) (store : Store) : Nat → DateTime → List Lead
  | 0, _ => []
  | fuel + 1, current =>
      if dtLe current d2
      then storeGet store (dayKey current) ++ glfrGo d2 store fuel (nextDay current)
      else []

def glfrFuel (d1 d2 : DateTime) : Nat := rdOf d2 + 1 - rdOf d1

def get_leads_for_range (d1 d2 : DateTime) (store : Store) : List Lead :=
  glfrGo d2 store (glfrFuel d1 d2) d1

-- The day-keys from d1 through d2 inclusive, in calendar order.
def dayKeysGo (d2 : DateTime) : Nat → DateTime → List String
  | 0, _ => []
  | fuel + 1, current =>
      if dtLe current d2
      then dayKey current :: dayKeysGo d2 fuel (nextDay current)
      else []

def dayKeysFromTo (d1 d2 : DateTime) : List String :=
  dayKeysGo d2 (glfrFuel d1 d2) d1

def concatBuckets (store : Store) : List String → List Lead
  | [] => []
  | k :: ks => storeGet store k ++ concatBuckets store ks

-- `\d{2}\.\d{2}(?:\.\d{4})?` at the current position: the optional year
-- part is greedy; when it is taken the following context (`\s*-` or end)
-- could only have failed on a '.', on which the year-less alternative
-- fails too, so no backtracking across this token is needed.
def matchDateTok : List Char → Option (List Char × List Char)
  | a :: b :: '.' :: c :: d :: rest =>
      if isDigitChar a ∧ isDigitChar b ∧ isDigitChar c ∧ isDigitChar d then
        match rest with
        | '.' :: e :: f :: g :: h :: rest2 =>
            if isDigitChar e ∧ isDigitChar f ∧ isDigitChar g ∧ isDigitChar h
            then some ([a, b, '.', c, d, '.', e, f, g, h], rest2)
            else some ([a, b, '.', c, d], rest)
        | _ => some ([a, b, '.', c, d], rest)
      else none
  | _ => none

-- r"(\d{2}\.\d{2}(?:\.\d{4})?)\s*[-]\s*(\d{2}\.\d{2}(?:\.\d{4})?)".
def rangeMatchAt (l : List Char) : Option (List Char × List Char) :=
  match matchDateTok l with
  | some (c1, r1) =>
      (match r1.dropWhile pySpace with
       | '-' :: r3 =>
           (match matchDateTok (r3.dropWhile pySpace) with
            | some (c2, _) => some (c1, c2)
            | none => none)
       | _ => none)
  | none => none

def rangeSearch (t : List Char) : Option (List Char × List Char) :=
  reSearch rangeMatchAt t

def dateSearch (t : List Char) : Option (List Char) :=
  reSearch (fun l => (matchDateTok l).map (fun r => r.1)) t

-- pd(s): strptime(s, "%d.%m.%Y") if len(s) > 5 else
-- strptime(f"{s}.{today.year}", "%d.%m.%Y"); a raise is `none`.
def pdDate (s : List Char) (today : DateTime) : Option DateTime :=
  if 5 < s.length then strptimeDMY s
  else strptimeDMY (s ++ '.' :: natDigits today.year)

-- " ".join(args).strip().lower()
def joinSpace : List String → List Char
  | [] => []
  | [s] => s.data
  | s :: rest => s.data ++ ' ' :: joinSpace rest

def normArgs (args : List String) : List Char :=
  pyLowerList (pyStripChars (joinSpace args))

def parse_report_args (args : List String) (today : DateTime) (store : Store) :
    Except Unit (List Lead × String) :=
  let text := normArgs args
  if text = [] ∨ text = ("сегодня").data then
    Except.ok (storeGet store (dayKey today), todayLabel today)
  else if containsSub (("месяц").data) text then
    Except.ok (get_leads_for_range (replaceDay1 today) today store, monthLabel today)
  else
    match rangeSearch text with
    | some (s1, s2) =>
        (match pdDate s1 today, pdDate s2 today with
         | some d1, some d2 =>
             Except.ok (get_leads_for_range d1 d2 store, rangeLabel d1 d2)
         | _, _ => Except.error ())
    | none =>
        (match dateSearch text with
         | some ds =>
             (match pdDate ds today with
              | some dd => Except.ok (storeGet store (dayKey dd), dateLabel dd)
              | none => Except.error ())
         | none => Except.ok (storeGet store (dayKey today), todayLabel today))

/-! The settime command (src/bot.py lines 232-252). -/

-- REPORT_HOUR plus the daily_report entries of the job queue.
structure SettimeState where
  reportHour : Int
  jobs : List (String × Int)
deriving DecidableEq

inductive STReply where
  | usage
  | success (kyivHour : Int)
  | invalid
deriving DecidableEq

def STReply.isError : STReply → Bool
  | STReply.usage => true
  | STReply.invalid => true
  | STReply.success _ => false

-- int(s) for Python: surrounding whitespace, optional sign, digits with
-- single interior underscores.
def digitsGo (acc : Nat) : List Char → Option Nat
  | [] => some acc
  | '_' :: c :: cs =>
      (match digitVal c with
       | some d => digitsGo (10 * acc + d) cs
       | none => none)
  | '_' :: [] => none
  | c :: cs =>
      (match digitVal c with
       | some d => digitsGo (10 * acc + d) cs
       | none => none)

def digitsStart : List Char → Option Nat
  | [] => none
  | c :: cs =>
      match digitVal c with
      | some d => digitsGo d cs
      | none => none

def pyInt (s : String) : Option Int :=
  match pyStripChars s.data with
  | '+' :: c :: cs => (digitsStart (c :: cs)).map (fun n => (n : Int))
  | '-' :: c :: cs => (digitsStart (c :: cs)).map (fun n => -(n : Int))
  | l => (digitsStart l).map (fun n => (n : Int))

-- cmd_settime: no argument replies usage; a non-int or out-of-range
-- argument raises into the except arm (error reply, nothing changed);
-- otherwise REPORT_HOUR is set and the daily_report job reinstalled.
def cmd_settime (args : List String) (st : SettimeState) : SettimeState × STReply :=
  match args with
  | [] => (st, STReply.usage)
  | a :: _ =>
      match pyInt a with
      | none => (st, STReply.invalid)
      | some n =>
          if 0 ≤ n ∧ n ≤ 23 then
            ({ reportHour := n,
               jobs := (st.jobs.filter (fun j => ¬ j.1 = ("daily_report"))) ++
                       [(("daily_report"), n)] },
             STReply.success ((n + 2) % 24))
          else (st, STReply.invalid)

/-! Concrete inputs used by counterexamples and witnesses. -/

deriving instance DecidableEq for Except

def dt0 : DateTime := ⟨2026, 10, 12, 0, 0, 0, 0⟩

def exL1 : Lead :=
  ⟨("Анна"), ("+380"), ("50"), ("Київ"), ("—"), ("Insta"), ("META Ads"), dt0⟩

def exL2 : Lead :=
  ⟨("Борис"), ("+380"), ("60"), ("Буча"), ("—"), ("FB"), ("META Ads"), dt0⟩

def exStore : Store :=
  [(("2026-10-12"), [exL1, exL2]), (("2026-10-13"), [exL2])]

def texAB : String := "Новый лид из META Ads\nRequest details\nПлатформа: Instagram"

def texB : String := "Request details\nName: Jane Doe\nЛокація: Буча"

def texPlain : String := "звіт будь ласка"

def feb1 : DateTime := ⟨2026, 2, 1, 0, 0, 0, 0⟩

def feb5 : DateTime := ⟨2026, 2, 5, 0, 0, 0, 0⟩

def febKey (d : Nat) : String := dayKey ⟨2026, 2, d, 0, 0, 0, 0⟩

def stw6 : Store :=
  [((febKey 1), [exL1]), ((febKey 3), [exL2]), ((febKey 6), [exL1]),
   ((febKey 5), [exL1, exL2])]

def st21 : SettimeState := ⟨21, [(("daily_report"), 21)]⟩

/-! Helper lemmas. -/

theorem dedupPhone_length (ls : List Lead) :
    ∀ seen, (dedupPhone ls seen).1.length + (dedupPhone ls seen).2 = ls.length := by
  induction ls with
  | nil => intro seen; rfl
  | cons l rest ih =>
      intro seen
      by_cases h : pyStrip l.phone ∈ seen
      · simp only [dedupPhone, if_pos h]
        have := ih seen
        simpa using by omega
      · simp only [dedupPhone, if_neg h, List.length_cons]
        have := ih (pyStrip l.phone :: seen)
        omega

theorem glfrGo_eq_concat (d2 : DateTime) (store : Store) :
    ∀ fuel current, glfrGo d2 store fuel current =
      concatBuckets store (dayKeysGo d2 fuel current) := by
  intro fuel
  induction fuel with
  | zero => intro c; rfl
  | succ n ih =>
      intro c
      by_cases hc : dtLe c d2 = true
      · simp only [glfrGo, dayKeysGo, if_pos hc, concatBuckets, ih]
      · simp only [glfrGo, dayKeysGo, if_neg hc, concatBuckets]

theorem get_leads_for_range_eq_concat (d1 d2 : DateTime) (store : Store) :
    get_leads_for_range d1 d2 store = concatBuckets store (dayKeysFromTo d1 d2) :=
  glfrGo_eq_concat d2 store (glfrFuel d1 d2) d1

theorem digitVal_dc (d : Nat) (h : d < 10) : digitVal (dc d) = some d := by
  interval_cases d <;> rfl

theorem num2_pad2 (n : Nat) (h : n < 100) :
    num2 (dc (n / 10 % 10)) (dc (n % 10)) = some n := by
  have e1 := digitVal_dc (n / 10 % 10) (Nat.mod_lt _ (by omega))
  have e2 := digitVal_dc (n % 10) (Nat.mod_lt _ (by omega))
  simp only [num2, e1, e2]
  have : 10 * (n / 10 % 10) + n % 10 = n := by omega
  rw [this]

theorem num4_pad4 (n : Nat) (h : n < 10000) :
    num4 (dc (n / 1000 % 10)) (dc (n / 100 % 10)) (dc (n / 10 % 10)) (dc (n % 10)) =
      some n := by
  have e1 := digitVal_dc (n / 1000 % 10) (Nat.mod_lt _ (by omega))
  have e2 := digitVal_dc (n / 100 % 10) (Nat.mod_lt _ (by omega))
  have e3 := digitVal_dc (n / 10 % 10) (Nat.mod_lt _ (by omega))
  have e4 := digitVal_dc (n % 10) (Nat.mod_lt _ (by omega))
  simp only [num4, e1, e2, e3, e4]
  have : 1000 * (n / 1000 % 10) + 100 * (n / 100 % 10) + 10 * (n / 10 % 10) + n % 10 = n := by
    omega
  rw [this]

theorem num6_pad6 (n : Nat) (h : n < 1000000) :
    num6 (dc (n / 100000 % 10)) (dc (n / 10000 % 10)) (dc (n / 1000 % 10))
      (dc (n / 100 % 10)) (dc (n / 10 % 10)) (dc (n % 10)) = some n := by
  have e1 := digitVal_dc (n / 100000 % 10) (Nat.mod_lt _ (by omega))
  have e2 := digitVal_dc (n / 10000 % 10) (Nat.mod_lt _ (by omega))
  have e3 := digitVal_dc (n / 1000 % 10) (Nat.mod_lt _ (by omega))
  have e4 := digitVal_dc (n / 100 % 10) (Nat.mod_lt _ (by omega))
  have e5 := digitVal_dc (n / 10 % 10) (Nat.mod_lt _ (by omega))
  have e6 := digitVal_dc (n % 10) (Nat.mod_lt _ (by omega))
  simp only [num6, e1, e2, e3, e4, e5, e6]
  have : 100000 * (n / 100000 % 10) + 10000 * (n / 10000 % 10) + 1000 * (n / 1000 % 10) +
      100 * (n / 100 % 10) + 10 * (n / 10 % 10) + n % 10 = n := by omega
  rw [this]


theorem daysInMonth_le (y m : Nat) : daysInMonth y m ≤ 31 := by
  unfold daysInMonth
  split <;> first | omega | (split <;> omega)

theorem parseIso_isoChars (dt : DateTime) (h : dtValid dt = true) :
    parseIso (isoChars dt) = some dt := by
  have hb := h
  simp only [dtValid, decide_eq_true_eq] at hb
  obtain ⟨dty, dtm, dtd, dth, dti, dts, dtu⟩ := dt
  simp only at hb
  have hdm := daysInMonth_le dty dtm
  by_cases hus : dtu = 0
  · subst hus
    simp only [isoChars, pad4, pad2, if_pos rfl, List.cons_append, List.nil_append,
      List.append_nil, parseIso, parseUsec]
    rw [num4_pad4 dty (by omega), num2_pad2 dtm (by omega), num2_pad2 dtd (by omega),
      num2_pad2 dth (by omega), num2_pad2 dti (by omega), num2_pad2 dts (by omega)]
    simp only [h, if_true]
  · simp only [isoChars, pad4, pad2, pad6, if_neg hus, List.cons_append, List.nil_append,
      List.append_nil, parseIso, parseUsec]
    rw [num4_pad4 dty (by omega), num2_pad2 dtm (by omega), num2_pad2 dtd (by omega),
      num2_pad2 dth (by omega), num2_pad2 dti (by omega), num2_pad2 dts (by omega),
      num6_pad6 dtu (by omega)]
    simp only [h, if_true]

theorem deserLead_serLead (l : Lead) (h : dtValid l.date = true) :
    deserLead (serLead l) = some l := by
  simp only [deserLead, serLead, fromisoformat, isoformat]
  rw [parseIso_isoChars l.date h]
  rfl

theorem loadBucket_save (v : List Lead) (h : v.all (fun l => dtValid l.date) = true) :
    loadBucket (v.map serLead) = some v := by
  induction v with
  | nil => rfl
  | cons l rest ih =>
      simp only [List.all_cons, Bool.and_eq_true] at h
      simp only [List.map_cons, loadBucket, deserLead_serLead l h.1, ih h.2]

theorem save_load_roundtrip (s : Store) (h : storeValid s = true) :
    load_leads_data (save_leads s) = some s := by
  induction s with
  | nil => rfl
  | cons kv rest ih =>
      have hh : (kv.2.all (fun l => dtValid l.date) = true) ∧ storeValid rest = true := by
        simpa [storeValid, List.all_cons, Bool.and_eq_true] using h
      obtain ⟨k, v⟩ := kv
      simp only [save_leads, List.map_cons, load_leads_data, loadBucket_save v hh.1]
      have ihr := ih hh.2
      simp only [save_leads] at ihr
      simp only [ihr]

theorem daysBeforeMonth_step (y m : Nat) (h1 : 1 ≤ m) (h2 : m ≤ 11) :
    daysBeforeMonth y (m + 1) = daysBeforeMonth y m + daysInMonth y m := by
  interval_cases m <;> simp only [daysBeforeMonth, daysInMonth, leapBit] <;>
    (try split) <;> omega

-- One timedelta(days=1) step advances rdOf by exactly one on valid dates:
-- the fuel of glfrGo therefore counts exactly the iterations the source's
-- `while current <= date_to` loop performs.
set_option maxHeartbeats 1600000 in
theorem rdOf_nextDay (dt : DateTime) (h : dtValid dt = true) :
    rdOf (nextDay dt) = rdOf dt + 1 := by
  simp only [dtValid, decide_eq_true_eq] at h
  obtain ⟨y, m, d, hh, mi, se, us⟩ := dt
  simp only at h
  unfold nextDay
  by_cases hd : d < daysInMonth y m
  · simp only [if_pos hd, rdOf]
    omega
  · by_cases hm : m < 12
    · simp only [if_neg hd, if_pos hm, rdOf]
      have hstep := daysBeforeMonth_step y m (by omega) (by omega)
      have : d = daysInMonth y m := by omega
      omega
    · simp only [if_neg hd, if_neg hm]
      have hm12 : m = 12 := by omega
      subst hm12
      have hdim : daysInMonth y 12 = 31 := rfl
      have hd31 : d = 31 := by omega
      subst hd31
      have hy : 1 ≤ y := h.1
      clear hd h hdim
      simp only [rdOf, daysBeforeMonth, leapBit, isLeap]
      by_cases hP : ((y % 4 = 0 ∧ ¬ y % 100 = 0) ∨ y % 400 = 0)
      · rw [if_pos (by simpa using hP)]
        rcases hP with ⟨ha, hc⟩ | hc
        · omega
        · omega
      · rw [if_neg (by simpa using hP)]
        push_neg at hP
        obtain ⟨hP1, hP2⟩ := hP
        by_cases h4 : y % 4 = 0
        · have h100 : y % 100 = 0 := hP1 h4
          omega
        · omega

/-- C2: for every input text that contains neither the format A signature
substring nor a format B signature substring, parse_lead returns the
not-a-lead result `Except.ok none` - neither a record nor an error. -/
theorem parse_lead_no_signature (text : String) (now : DateTime)
    (hA : containsSub sigA text.data = false)
    (hB1 : containsSub sigB1 text.data = false)
    (hB2 : containsSub sigB2 text.data = false) :
    parse_lead text now = Except.ok none := by
  simp [parse_lead, hA, hB1, hB2]

/-- C2 witness: the empty string has no signature and parses to none. -/
theorem parse_lead_no_signature_witness :
    containsSub sigA ("" : String).data = false ∧
    containsSub sigB1 ("" : String).data = false ∧
    containsSub sigB2 ("" : String).data = false ∧
    parse_lead ("") dt0 = Except.ok none :=
  ⟨by decide, by decide, by decide,
   parse_lead_no_signature ("") dt0 (by decide) (by decide) (by decide)⟩

/-- C10: when both the format A signature and a format B signature are
present, parse_lead takes the format A branch: the record's source is
"META Ads" and its platform comes from the text's own labeled line, not
the hardcoded website tag. -/
theorem parse_lead_both_signatures (text : String) (now d : DateTime)
    (hA : containsSub sigA text.data = true)
    (_hB : containsSub sigB1 text.data = true ∨ containsSub sigB2 text.data = true)
    (hd : leadDateResolve text.data now = Except.ok d) :
    parse_lead text now = Except.ok (some (recordA text.data d)) ∧
    (recordA text.data d).source = ("META Ads") ∧
    (recordA text.data d).platform = extract (findPlatformA text.data) :=
  ⟨by simp [parse_lead, hA, hd], rfl, rfl⟩

/-- C10 witness: a text carrying both signatures yields the META Ads
record with the platform taken from the text. -/
theorem parse_lead_both_signatures_witness :
    containsSub sigA texAB.data = true ∧
    (containsSub sigB1 texAB.data = true ∨ containsSub sigB2 texAB.data = true) ∧
    leadDateResolve texAB.data dt0 = Except.ok dt0 ∧
    (parse_lead texAB dt0 = Except.ok (some (recordA texAB.data dt0)) ∧
     (recordA texAB.data dt0).source = ("META Ads") ∧
     (recordA texAB.data dt0).platform = extract (findPlatformA texAB.data)) ∧
    (recordA texAB.data dt0).platform = ("Instagram") :=
  ⟨by decide, Or.inl (by decide), by decide,
   parse_lead_both_signatures texAB dt0 dt0 (by decide) (Or.inl (by decide)) (by decide),
   by decide⟩

/-- C7: every canonical city name in the value set of CITY_MAP is a fixed
point of normalize_city. -/
theorem normalize_city_fixed_points (v : String) (h : v ∈ CITY_MAP.map Prod.snd) :
    normalize_city v = v := by
  fin_cases h <;> decide

/-- C7 witness: the canonical name of the capital maps to itself. -/
theorem normalize_city_fixed_points_witness :
    ("Київ") ∈ CITY_MAP.map Prod.snd ∧ normalize_city ("Київ") = ("Київ") :=
  ⟨by decide, normalize_city_fixed_points ("Київ") (by decide)⟩

/-- C9: a malformed settime argument (missing, non-integer, or an integer
outside 0..23) produces an error reply and leaves the state - the
configured hour and the daily_report jobs - unchanged. -/
theorem cmd_settime_invalid_no_change (args : List String) (st : SettimeState)
    (h : args = [] ∨ ∃ a rest, args = a :: rest ∧
        (pyInt a = none ∨ ∃ n, pyInt a = some n ∧ ¬ (0 ≤ n ∧ n ≤ 23))) :
    (cmd_settime args st).1 = st ∧ ((cmd_settime args st).2.isError = true) := by
  rcases h with rfl | ⟨a, rest, rfl, hpa⟩
  · exact ⟨rfl, rfl⟩
  · rcases hpa with hpn | ⟨n, hn, hout⟩
    · simp [cmd_settime, hpn, STReply.isError]
    · simp [cmd_settime, hn, hout, STReply.isError]

/-- C9 witness: settime 24 is rejected and changes nothing. -/
theorem cmd_settime_invalid_no_change_witness :
    ([("24")] = ([] : List String) ∨ ∃ a rest, [("24")] = a :: rest ∧
        (pyInt a = none ∨ ∃ n, pyInt a = some n ∧ ¬ (0 ≤ n ∧ n ≤ 23))) ∧
    ((cmd_settime [("24")] st21).1 = st21 ∧
     ((cmd_settime [("24")] st21).2.isError = true)) :=
  ⟨Or.inr ⟨("24"), [], rfl, Or.inr ⟨24, by decide, by decide⟩⟩,
   cmd_settime_invalid_no_change [("24")] st21
     (Or.inr ⟨("24"), [], rfl, Or.inr ⟨24, by decide, by decide⟩⟩)⟩

/-- C8 counterexample: with the backing file present but unreadable or
unparseable, load_leads does not degrade to an empty store without error;
json.load's exception propagates out of it. -/
theorem load_leads_unreadable_raises :
    load_leads [] LoadInput.unreadable = Except.error () ∧
    ¬ load_leads [] LoadInput.unreadable = Except.ok [] :=
  ⟨rfl, by decide⟩

/-- C8 amended: an absent backing file leaves the store untouched (hence
empty at startup) with no error, but unreadable or unparseable content
makes load_leads propagate the exception instead of degrading to an
empty store. -/
theorem load_leads_absent_ok_unreadable_raises (current : Store) :
    load_leads current LoadInput.noFile = Except.ok current ∧
    load_leads current LoadInput.unreadable = Except.error () :=
  ⟨rfl, rfl⟩

/-- C3: for text carrying a format signature, every field of the produced
record is the result of its own labeled-line search alone - present
labels are extracted independently of the others, and a missing label
yields the placeholder for that field only, with the whole record still
produced. -/
theorem parse_lead_fields_independent (text : String) (now d : DateTime)
    (hd : leadDateResolve text.data now = Except.ok d) :
    (containsSub sigA text.data = true →
      parse_lead text now = Except.ok (some (recordA text.data d)) ∧
      (recordA text.data d).name = extract (findNameA text.data) ∧
      (recordA text.data d).phone = extract (findPhoneA text.data) ∧
      (recordA text.data d).area = extract (findAreaA text.data) ∧
      (recordA text.data d).location = extract (findLocationA text.data) ∧
      (recordA text.data d).timing = extract (findTimingA text.data) ∧
      (recordA text.data d).platform = extract (findPlatformA text.data) ∧
      (findNameA text.data = none → (recordA text.data d).name = ("—")) ∧
      (findPhoneA text.data = none → (recordA text.data d).phone = ("—")) ∧
      (findAreaA text.data = none → (recordA text.data d).area = ("—")) ∧
      (findLocationA text.data = none → (recordA text.data d).location = ("—")) ∧
      (findTimingA text.data = none → (recordA text.data d).timing = ("—")) ∧
      (findPlatformA text.data = none → (recordA text.data d).platform = ("—")) ∧
      (recordA text.data d).date = d) ∧
    (containsSub sigA text.data = false →
      (containsSub sigB1 text.data = true ∨ containsSub sigB2 text.data = true) →
      parse_lead text now = Except.ok (some (recordB text.data d)) ∧
      (recordB text.data d).name = extract (findNameB text.data) ∧
      (recordB text.data d).phone = extract (findPhoneB text.data) ∧
      (recordB text.data d).area = extract (findAreaB text.data) ∧
      (recordB text.data d).location = extract (findLocationB text.data) ∧
      (recordB text.data d).timing = extract (findTimingB text.data) ∧
      (findNameB text.data = none → (recordB text.data d).name = ("—")) ∧
      (findPhoneB text.data = none → (recordB text.data d).phone = ("—")) ∧
      (findAreaB text.data = none → (recordB text.data d).area = ("—")) ∧
      (findLocationB text.data = none → (recordB text.data d).location = ("—")) ∧
      (findTimingB text.data = none → (recordB text.data d).timing = ("—")) ∧
      (recordB text.data d).platform = ("Сайт") ∧
      (recordB text.data d).source = ("Сайт") ∧
      (recordB text.data d).date = d) := by
  constructor
  · intro hA
    refine ⟨by simp [parse_lead, hA, hd], rfl, rfl, rfl, rfl, rfl, rfl,
      ?_, ?_, ?_, ?_, ?_, ?_, rfl⟩ <;>
      (intro h0; simp [recordA, extract, h0])
  · intro hA hB
    refine ⟨by simp [parse_lead, hA, hB, hd], rfl, rfl, rfl, rfl, rfl,
      ?_, ?_, ?_, ?_, ?_, rfl, rfl, rfl⟩ <;>
      (intro h0; simp [recordB, extract, h0])

/-- C3 witness: a format B text with the name and location labels present
and the other labels absent yields those two fields and placeholders for
the rest, with no error. -/
theorem parse_lead_fields_independent_witness :
    leadDateResolve texB.data dt0 = Except.ok dt0 ∧
    parse_lead texB dt0 = Except.ok (some (recordB texB.data dt0)) ∧
    (recordB texB.data dt0).name = ("Jane Doe") ∧
    (recordB texB.data dt0).location = ("Буча") ∧
    (recordB texB.data dt0).phone = ("—") ∧
    (recordB texB.data dt0).area = ("—") ∧
    (recordB texB.data dt0).timing = ("—") :=
  ⟨by decide,
   ((parse_lead_fields_independent texB dt0 dt0 (by decide)).2 (by decide)
      (Or.inl (by decide))).1,
   by decide, by decide, by decide, by decide, by decide⟩

/-- C1 counterexample: two records sharing one trimmed phone make the
claim fail - the reported total is the raw count 2 rather than the
post-deduplication count 1 (so total is not N minus duplicates), and
the single kept record shows 50 percent, not 100, in the city
grouping. -/
theorem build_report_total_counterexample :
    build_report [exL1, exL2] ("тест") =
      ReportResult.report (reportData [exL1, exL2] ("тест")) ∧
    (reportData [exL1, exL2] ("тест")).total = 2 ∧
    (reportData [exL1, exL2] ("тест")).duplicates = 1 ∧
    (reportData [exL1, exL2] ("тест")).cities = [(("Київ"), 1, 50)] ∧
    ¬ ((2 : Nat) = 2 - 1) := by
  refine ⟨by rw [build_report, if_neg (by decide)], by decide, by decide, ?_, by decide⟩
  have hg : sortDesc (groupCounts (fun l => normalize_city l.location)
      (dedupPhone [exL1, exL2] []).1) = [(("Київ"), 1)] := by decide
  have he : esc ("Київ") = ("Київ") := by decide
  simp only [reportData, hg, List.map_cons, List.map_nil, List.length_cons,
    List.length_nil, he, List.cons.injEq, Prod.mk.injEq, and_true]
  norm_num

/-- C1 amended: build_report deduplicates by trimmed phone and reports
the duplicate count, but the reported total and every percentage
denominator use the raw input count, taken before deduplication; with
all N records on one phone the kept record therefore shows 100/N
percent, not 100. -/
theorem build_report_raw_total (ls : List Lead) (label : String) (h : ¬ ls = []) :
    build_report ls label = ReportResult.report (reportData ls label) ∧
    (reportData ls label).total = ls.length ∧
    (reportData ls label).duplicates = ls.length - (dedupPhone ls []).1.length ∧
    (∀ e ∈ (reportData ls label).cities, e.2.2 = (e.2.1 : ℚ) / (ls.length : ℚ) * 100) ∧
    (∀ e ∈ (reportData ls label).areas, e.2.2 = (e.2.1 : ℚ) / (ls.length : ℚ) * 100) := by
  refine ⟨by simp [build_report, h], rfl, ?_, ?_, ?_⟩
  · have := dedupPhone_length ls []
    simp only [reportData]
    omega
  · intro e he
    simp only [reportData, List.mem_map] at he
    obtain ⟨x, _, rfl⟩ := he
    rfl
  · intro e he
    simp only [reportData, List.mem_map] at he
    obtain ⟨x, _, rfl⟩ := he
    rfl

/-- C1 amended witness: two same-phone records give total 2, one
duplicate, and 50 percent for the kept record's city and area. -/
theorem build_report_raw_total_witness :
    (¬ ([exL1, exL2] : List Lead) = []) ∧
    (build_report [exL1, exL2] ("т2") = ReportResult.report (reportData [exL1, exL2] ("т2")) ∧
     (reportData [exL1, exL2] ("т2")).total = ([exL1, exL2] : List Lead).length ∧
     (reportData [exL1, exL2] ("т2")).duplicates =
       ([exL1, exL2] : List Lead).length - (dedupPhone [exL1, exL2] []).1.length ∧
     (∀ e ∈ (reportData [exL1, exL2] ("т2")).cities,
        e.2.2 = (e.2.1 : ℚ) / (([exL1, exL2] : List Lead).length : ℚ) * 100) ∧
     (∀ e ∈ (reportData [exL1, exL2] ("т2")).areas,
        e.2.2 = (e.2.1 : ℚ) / (([exL1, exL2] : List Lead).length : ℚ) * 100)) :=
  ⟨by decide, build_report_raw_total [exL1, exL2] ("т2") (by decide)⟩

/-- C4: persisting a store with save_leads and reconstructing it with the
load path yields the identical mapping - same day-keys in order and,
per key, the identical record sequence with the identical timestamps;
the isoformat/fromisoformat round trip is the identity on the stored
datetimes. -/
theorem save_then_load_identity (s : Store) (h : storeValid s = true) :
    load_leads_data (save_leads s) = some s :=
  save_load_roundtrip s h

/-- C4 witness: a concrete two-day store with timestamped records
round-trips unchanged. -/
theorem save_then_load_identity_witness :
    storeValid exStore = true ∧ load_leads_data (save_leads exStore) = some exStore :=
  ⟨by decide, save_then_load_identity exStore (by decide)⟩

/-- C5: an empty argument list, the literal "сегодня", and any argument
text matching no recognized pattern (no month keyword, no range, no
single date) all resolve to today's single day-key bucket with the
today label, and no error is surfaced. -/
theorem parse_report_args_today_fallback (args : List String) (today : DateTime)
    (store : Store)
    (h : normArgs args = [] ∨ normArgs args = ("сегодня").data ∨
      (containsSub (("месяц").data) (normArgs args) = false ∧
       rangeSearch (normArgs args) = none ∧ dateSearch (normArgs args) = none)) :
    parse_report_args args today store =
      Except.ok (storeGet store (dayKey today), todayLabel today) := by
  rcases h with h0 | h0 | ⟨hm, hr, hd⟩
  · simp [parse_report_args, h0]
  · simp [parse_report_args, h0]
  · by_cases ht : (normArgs args = [] ∨ normArgs args = ("сегодня").data)
    · simp [parse_report_args, ht]
    · simp [parse_report_args, ht, hm, hr, hd]

/-- C5 witness: an unparseable argument resolves exactly as the empty and
the literal-today arguments do. -/
theorem parse_report_args_today_fallback_witness :
    (normArgs [texPlain] = [] ∨ normArgs [texPlain] = ("сегодня").data ∨
      (containsSub (("месяц").data) (normArgs [texPlain]) = false ∧
       rangeSearch (normArgs [texPlain]) = none ∧ dateSearch (normArgs [texPlain]) = none)) ∧
    parse_report_args [texPlain] dt0 stw6 =
      Except.ok (storeGet stw6 (dayKey dt0), todayLabel dt0) ∧
    parse_report_args [] dt0 stw6 =
      Except.ok (storeGet stw6 (dayKey dt0), todayLabel dt0) ∧
    parse_report_args [("Сегодня")] dt0 stw6 =
      Except.ok (storeGet stw6 (dayKey dt0), todayLabel dt0) :=
  ⟨Or.inr (Or.inr ⟨by decide, by decide, by decide⟩),
   parse_report_args_today_fallback [texPlain] dt0 stw6
     (Or.inr (Or.inr ⟨by decide, by decide, by decide⟩)),
   by decide, by decide⟩

/-- C6: argument text matching the range pattern with start not after end
resolves to the concatenation of the store's buckets for every day-key
from the start date through the end date inclusive, in calendar order,
with the year defaulting to the current year when omitted. -/
theorem parse_report_args_range (args : List String) (today : DateTime) (store : Store)
    (s1 s2 : List Char) (d1 d2 : DateTime)
    (hm : containsSub (("месяц").data) (normArgs args) = false)
    (hr : rangeSearch (normArgs args) = some (s1, s2))
    (h1 : pdDate s1 today = some d1)
    (h2 : pdDate s2 today = some d2)
    (_hle : dtLe d1 d2 = true) :
    parse_report_args args today store =
      Except.ok (concatBuckets store (dayKeysFromTo d1 d2), rangeLabel d1 d2) := by
  have hne : ¬ (normArgs args = [] ∨ normArgs args = ("сегодня").data) := by
    rintro (he | he) <;> rw [he] at hr
    · rw [show rangeSearch [] = none from rfl] at hr
      exact Option.noConfusion hr
    · rw [show rangeSearch (("сегодня").data) = none by decide] at hr
      exact Option.noConfusion hr
  simp [parse_report_args, hne, hm, hr, h1, h2, get_leads_for_range_eq_concat]

/-- C6 witness: "01.02-05.02" in 2026 resolves to exactly the five
day-keys of February 1 through February 5 and concatenates their
buckets in calendar order. -/
theorem parse_report_args_range_witness :
    containsSub (("месяц").data) (normArgs [("01.02-05.02")]) = false ∧
    rangeSearch (normArgs [("01.02-05.02")]) = some (("01.02").data, ("05.02").data) ∧
    pdDate (("01.02").data) dt0 = some feb1 ∧
    pdDate (("05.02").data) dt0 = some feb5 ∧
    dtLe feb1 feb5 = true ∧
    parse_report_args [("01.02-05.02")] dt0 stw6 =
      Except.ok (concatBuckets stw6 (dayKeysFromTo feb1 feb5), rangeLabel feb1 feb5) ∧
    dayKeysFromTo feb1 feb5 =
      [("2026-02-01"), ("2026-02-02"), ("2026-02-03"), ("2026-02-04"), ("2026-02-05")] ∧
    concatBuckets stw6 (dayKeysFromTo feb1 feb5) = [exL1, exL2, exL1, exL2] :=
  ⟨by decide, by decide, by decide, by decide, by decide,
   parse_report_args_range [("01.02-05.02")] dt0 stw6 (("01.02").data) (("05.02").data)
     feb1 feb5 (by decide) (by decide) (by decide) (by decide) (by decide),
   by decide, by decide⟩
